import Mathlib

/-!
Shallow embedding of `src/dma.rs` (STM32 DMA driver) and proofs about it.

The driver manipulates memory-mapped DMA registers.  We model the
software-visible register file explicitly and each driver operation as the
sequence of register writes it emits (its "trace") together with the state
those writes produce.  Per-variant `cfg_if!` duplication in the source
collapses to one register file: we model the L4-style layout
(channels C1..C7, a `cselr` channel-select register) plus the DMAMUX
per-channel request registers used by the `mux` routing strategy, so that
every public operation of the file is representable.

Conventions:
* u32 / u16 / u8 register values are `Nat` reduced modulo the register
  width at the write (`% 2^32`, `% 2^16`, `% 2^8`).
* An svd2rust `modify(|_, w| ...)` closure touches a specific set of CCR
  fields; a trace event records which fields the closure sets
  (`CcrWrite`), and `applyCcrWrite` gives the read-modify-write semantics:
  untouched fields keep their previous value.
* The busy-wait polls in `enable_interrupt!` re-read a register the code
  itself just wrote; in this single-actor model a read returns the value
  last written, so each poll loop exits at its first test and performs no
  register write.  The loop against adversarial hardware (reads not
  reflecting the write) is modelled separately by `pollWhileSet`.
-/

namespace Dma

/-- `enum DmaChannel` (non-g0, non-l5/g4 configuration: channels 1..7). -/
inductive DmaChannel
  | C1 | C2 | C3 | C4 | C5 | C6 | C7
  deriving DecidableEq, Repr

/-- `enum Priority` with its `repr(u8)` discriminants (CCR PL field). -/
inductive Priority
  | Low | Medium | High | VeryHigh
  deriving DecidableEq, Repr

/-- `Priority as u8`. -/
def Priority.toU8 : Priority → Nat
  | .Low => 0b00
  | .Medium => 0b01
  | .High => 0b10
  | .VeryHigh => 0b11

/-- `enum Direction` (CCR DIR bit). -/
inductive Direction
  | ReadFromPeriph | ReadFromMem
  deriving DecidableEq, Repr

/-- `Direction as u8`. -/
def Direction.toU8 : Direction → Nat
  | .ReadFromPeriph => 0
  | .ReadFromMem => 1

/-- `enum Circular` (CCR CIRC bit). -/
inductive Circular
  | Disabled | Enabled
  deriving DecidableEq, Repr

/-- `Circular as u8`. -/
def Circular.toU8 : Circular → Nat
  | .Disabled => 0
  | .Enabled => 1

/-- `enum IncrMode` (CCR PINC / MINC bits). -/
inductive IncrMode
  | Disabled | Enabled
  deriving DecidableEq, Repr

/-- `IncrMode as u8`. -/
def IncrMode.toU8 : IncrMode → Nat
  | .Disabled => 0
  | .Enabled => 1

/-- `enum DataSize` (CCR PSIZE / MSIZE fields). -/
inductive DataSize
  | S8 | S16 | S32
  deriving DecidableEq, Repr

/-- `DataSize as u8`. -/
def DataSize.toU8 : DataSize → Nat
  | .S8 => 0b00
  | .S16 => 0b01
  | .S32 => 0b10

/-- `enum DmaInterrupt` (CCR TEIE / HTIE / TCIE bits). -/
inductive DmaInterrupt
  | TransferError | HalfTransfer | TransferComplete
  deriving DecidableEq, Repr

/-- `struct ChannelCfg`. -/
structure ChannelCfg where
  priority : Priority
  circular : Circular
  periph_incr : IncrMode
  mem_incr : IncrMode
  periph_size : DataSize
  mem_size : DataSize
  deriving DecidableEq, Repr

/-- `impl Default for ChannelCfg`. -/
def ChannelCfg.default : ChannelCfg :=
  { priority := .Medium
    circular := .Disabled
    periph_incr := .Disabled
    mem_incr := .Enabled
    periph_size := .S8
    mem_size := .S8 }

/-- The DMA_CCRx register, as its named fields. -/
structure CCR where
  en : Bool
  mem2mem : Bool
  pl : Nat
  dir : Bool
  circ : Bool
  pinc : Bool
  minc : Bool
  psize : Nat
  msize : Nat
  teie : Bool
  htie : Bool
  tcie : Bool
  deriving DecidableEq, Repr

/-- One channel's dedicated registers: DMA_CPARx, DMA_CMARx, DMA_CNDTRx, DMA_CCRx. -/
structure ChannelRegs where
  cpar : Nat
  cmar : Nat
  cndtr : Nat
  ccr : CCR
  deriving DecidableEq, Repr

/-- The software-visible DMA register file: per-channel registers, the
latched interrupt flags of DMA_ISR, the channel-selection register
DMA_CSELR, and the DMAMUX per-channel request registers. -/
structure DmaState where
  chs : DmaChannel → ChannelRegs
  flags : DmaChannel → DmaInterrupt → Bool
  cselr : DmaChannel → Nat
  muxcr : DmaChannel → Nat

/-- Which CCR fields one `modify` closure in the source sets.  Every CCR
write in `dma.rs` is one of these four shapes. -/
inductive CcrWrite
  | setEn (b : Bool)
  | clearMem2mem
  | setMode (pl : Nat) (dir : Bool) (circ : Bool) (pinc : Bool) (minc : Bool)
      (psize : Nat) (msize : Nat)
  | setIntEnable (it : DmaInterrupt)
  deriving DecidableEq, Repr

/-- Read-modify-write semantics of the four `modify` shapes.  `setMode` is
the single `modify` at the end of `set_ccr!`: it sets PL, DIR, CIRC, PINC,
MINC, PSIZE, MSIZE and EN:=1, leaving MEM2MEM and the interrupt enables at
their previous values. -/
def applyCcrWrite (c : CCR) : CcrWrite → CCR
  | .setEn b => { c with en := b }
  | .clearMem2mem => { c with mem2mem := false }
  | .setMode pl dir circ pinc minc psize msize =>
      { c with pl := pl % 4, dir := dir, circ := circ, pinc := pinc,
               minc := minc, psize := psize % 4, msize := msize % 4, en := true }
  | .setIntEnable it =>
      match it with
      | .TransferError => { c with teie := true }
      | .HalfTransfer => { c with htie := true }
      | .TransferComplete => { c with tcie := true }

/-- One register write emitted by the driver. -/
inductive WriteEvent
  | wCpar (ch : DmaChannel) (v : Nat)
  | wCmar (ch : DmaChannel) (v : Nat)
  | wCndtr (ch : DmaChannel) (v : Nat)
  | wCcr (ch : DmaChannel) (f : CcrWrite)
  | wIfcr (ch : DmaChannel) (it : DmaInterrupt)
  | wCselr (ch : DmaChannel) (v : Nat)
  | wMuxCr (ch : DmaChannel) (v : Nat)
  deriving DecidableEq, Repr

/-- Update one channel's registers, leaving the others alone. -/
def DmaState.updateCh (s : DmaState) (ch : DmaChannel)
    (f : ChannelRegs → ChannelRegs) : DmaState :=
  { s with chs := fun c => if c = ch then f (s.chs c) else s.chs c }

/-- Effect of one register write on the register file.  `wIfcr ch it` is
the one-hot `ifcr.write` of `clear_interrupt`: the DMA_IFCR register is
write-one-to-clear, so the single set clear-bit un-latches exactly that
channel's flag of that kind and the zero bits leave every other flag
alone. -/
def applyWrite (s : DmaState) : WriteEvent → DmaState
  | .wCpar ch v => s.updateCh ch fun r => { r with cpar := v % 2 ^ 32 }
  | .wCmar ch v => s.updateCh ch fun r => { r with cmar := v % 2 ^ 32 }
  | .wCndtr ch v => s.updateCh ch fun r => { r with cndtr := v % 2 ^ 16 }
  | .wCcr ch f => s.updateCh ch fun r => { r with ccr := applyCcrWrite r.ccr f }
  | .wIfcr ch it =>
      { s with flags := fun c k => s.flags c k && !(c = ch && k = it) }
  | .wCselr ch v => { s with cselr := fun c => if c = ch then v % 2 ^ 3 else s.cselr c }
  | .wMuxCr ch v => { s with muxcr := fun c => if c = ch then v % 2 ^ 8 else s.muxcr c }

/-- Run a write trace left to right. -/
def runTrace (s : DmaState) (tr : List WriteEvent) : DmaState :=
  tr.foldl applyWrite s

/-- The write sequence of `set_ccr!`: clear EN, clear MEM2MEM when circular
mode is requested, then the single mode-and-enable `modify`. -/
def set_ccr_trace (ch : DmaChannel) (priority : Priority) (direction : Direction)
    (circular : Circular) (periph_incr mem_incr : IncrMode)
    (periph_size mem_size : DataSize) : List WriteEvent :=
  [WriteEvent.wCcr ch (.setEn false)]
    ++ (match circular with
        | .Enabled => [WriteEvent.wCcr ch .clearMem2mem]
        | .Disabled => [])
    ++ [WriteEvent.wCcr ch (.setMode priority.toU8 (direction.toU8 != 0)
          (circular.toU8 != 0) (periph_incr.toU8 != 0) (mem_incr.toU8 != 0)
          periph_size.toU8 mem_size.toU8)]

/-- The write sequence of `Dma::cfg_channel`: CPAR, CMAR, CNDTR, then the
`set_ccr!` sequence for the channel's CCR. -/
def cfg_channel_trace (ch : DmaChannel) (periph_addr mem_addr num_data : Nat)
    (direction : Direction) (cfg : ChannelCfg) : List WriteEvent :=
  [WriteEvent.wCpar ch periph_addr,
   WriteEvent.wCmar ch mem_addr,
   WriteEvent.wCndtr ch num_data]
    ++ set_ccr_trace ch cfg.priority direction cfg.circular cfg.periph_incr
        cfg.mem_incr cfg.periph_size cfg.mem_size

/-- `Dma::cfg_channel`: configure a DMA channel; final register state. -/
def cfg_channel (s : DmaState) (ch : DmaChannel) (periph_addr mem_addr num_data : Nat)
    (direction : Direction) (cfg : ChannelCfg) : DmaState :=
  runTrace s (cfg_channel_trace ch periph_addr mem_addr num_data direction cfg)

/-- The write sequence of `Dma::stop`: one `modify` clearing EN. -/
def stop_trace (ch : DmaChannel) : List WriteEvent :=
  [WriteEvent.wCcr ch (.setEn false)]

/-- `Dma::stop`: clear the channel's EN bit. -/
def stop (s : DmaState) (ch : DmaChannel) : DmaState :=
  runTrace s (stop_trace ch)

/-- The write sequence of `enable_interrupt!`: the macro reads EN; when the
channel is enabled it clears EN, busy-polls EN until clear, sets the
requested interrupt-enable bit, sets EN again and busy-polls EN until set;
when disabled it sets the interrupt-enable bit directly.  Here each poll
re-reads the register the macro just wrote, so in this single-actor model
a poll exits at its first test and emits no write. -/
def enable_interrupt_trace (en0 : Bool) (ch : DmaChannel) (it : DmaInterrupt) :
    List WriteEvent :=
  (if en0 then [WriteEvent.wCcr ch (.setEn false)] else [])
    ++ [WriteEvent.wCcr ch (.setIntEnable it)]
    ++ (if en0 then [WriteEvent.wCcr ch (.setEn true)] else [])

/-- `Dma::enable_interrupt`: set one interrupt-enable bit, transparently
toggling EN around it when the channel is running. -/
def enable_interrupt (s : DmaState) (ch : DmaChannel) (it : DmaInterrupt) : DmaState :=
  runTrace s (enable_interrupt_trace (s.chs ch).ccr.en ch it)

/-- The write sequence of `Dma::clear_interrupt`: one one-hot `write` to
DMA_IFCR with only the channel's clear-bit for the kind set. -/
def clear_interrupt_trace (ch : DmaChannel) (it : DmaInterrupt) : List WriteEvent :=
  [WriteEvent.wIfcr ch it]

/-- `Dma::clear_interrupt`. -/
def clear_interrupt (s : DmaState) (ch : DmaChannel) (it : DmaInterrupt) : DmaState :=
  runTrace s (clear_interrupt_trace ch it)

/-- `Dma::channel_select` (L4 routing strategy): panics with message
"CSEL must be 0 - 7" when `selection > 7`, before any register access;
otherwise one `modify` of the channel's 3-bit CSEL field in DMA_CSELR.
The panic is modelled as `Except.error` carrying the panic message. -/
def channel_select (s : DmaState) (ch : DmaChannel) (selection : Nat) :
    Except String (List WriteEvent × DmaState) :=
  if selection > 7 then
    .error "CSEL must be 0 - 7"
  else
    let tr := [WriteEvent.wCselr ch selection]
    .ok (tr, runTrace s tr)

/-- `Dma::mux` (DMAMUX routing strategy): one `modify` of the channel's
DMAMUX request register's DMAREQ_ID field with the caller's `u8`
`selection`.  The source performs no range validation. -/
def mux (s : DmaState) (ch : DmaChannel) (selection : Nat) :
    List WriteEvent × DmaState :=
  let tr := [WriteEvent.wMuxCr ch selection]
  (tr, runTrace s tr)

/-- The busy-wait `while ccr.read().en().bit_is_set() {}` of
`enable_interrupt!`, run against hardware whose polled EN values are
given by `oracle` (the value returned by the `i`-th read).  The source
loop is unbounded; we index it by fuel: `some i` means the loop exited at
the `i`-th read, `none` means it was still spinning after `fuel` reads. -/
def pollWhileSet (oracle : Nat → Bool) : Nat → Nat → Option Nat
  | 0, _ => none
  | fuel + 1, i => if oracle i then pollWhileSet oracle fuel (i + 1) else some i

/-! ### Trace checkers

Boolean predicates over write traces, formalising the ordering properties
the spec states about the emitted register-access sequence. -/

/-- Does this event write one of the fields that C2 protects: the
peripheral-address, memory-address or transfer-count register, or the
CCR configuration-mode fields (priority/direction/circular/increment/width)?
A CCR `modify` touching only EN or only MEM2MEM or only an
interrupt-enable bit does not write those fields. -/
def cfgFieldWrite : WriteEvent → Bool
  | .wCpar _ _ => true
  | .wCmar _ _ => true
  | .wCndtr _ _ => true
  | .wCcr _ (.setMode _ _ _ _ _ _ _) => true
  | _ => false

/-- Does this event write the CCR configuration-mode fields only? -/
def modeFieldWrite : WriteEvent → Bool
  | .wCcr _ (.setMode _ _ _ _ _ _ _) => true
  | _ => false

/-- The channel's EN bit after this event, given its value before. -/
def enAfter (en : Bool) : WriteEvent → Bool
  | .wCcr _ (.setEn b) => b
  | .wCcr _ (.setMode _ _ _ _ _ _ _) => true
  | _ => en

/-- Scan a trace tracking the EN bit (starting from `en0`); `true` iff no
event selected by `sel` occurs while EN is set. -/
def noWriteWhileEnabled (sel : WriteEvent → Bool) : Bool → List WriteEvent → Bool
  | _, [] => true
  | en0, e :: rest => (!sel e || !en0) && noWriteWhileEnabled sel (enAfter en0 e) rest

/-- The per-kind interrupt-enable bit of a CCR value. -/
def CCR.intEnable (c : CCR) : DmaInterrupt → Bool
  | .TransferError => c.teie
  | .HalfTransfer => c.htie
  | .TransferComplete => c.tcie

/-- The CCR values a trace leaves the channel's CCR at, after each event
(the last entry is the final value). -/
def ccrStates (c : CCR) : List WriteEvent → List CCR
  | [] => []
  | .wCcr _ f :: rest => applyCcrWrite c f :: ccrStates (applyCcrWrite c f) rest
  | _ :: rest => c :: ccrStates c rest

/-- `true` iff after every write of the trace (and hence in the final
state) the channel's CIRC and MEM2MEM bits are not both set, starting from
CCR value `c`. -/
def noBothCircMem2mem (c : CCR) (tr : List WriteEvent) : Bool :=
  (ccrStates c tr).all fun c' => !(c'.circ && c'.mem2mem)

/-- `true` iff every event of the trace that sets the CIRC bit is preceded
by an event clearing MEM2MEM. -/
def mem2memClearedBeforeCirc : List WriteEvent → Bool :=
  go false
where
  /-- The flag `cleared` records that a MEM2MEM-clearing write has already
  occurred earlier in the trace. -/
  go (cleared : Bool) : List WriteEvent → Bool
    | [] => true
    | .wCcr _ .clearMem2mem :: rest => go true rest
    | .wCcr _ (.setMode _ _ circ _ _ _ _) :: rest => (!circ || cleared) && go cleared rest
    | _ :: rest => go cleared rest

/-! ### Concrete register-file states used to exercise the operations -/

/-- A CCR with every field at its reset value. -/
def zeroCCR : CCR :=
  { en := false, mem2mem := false, pl := 0, dir := false, circ := false,
    pinc := false, minc := false, psize := 0, msize := 0,
    teie := false, htie := false, tcie := false }

/-- One channel's registers at reset. -/
def zeroChannel : ChannelRegs :=
  { cpar := 0, cmar := 0, cndtr := 0, ccr := zeroCCR }

/-- The whole register file at reset. -/
def resetState : DmaState :=
  { chs := fun _ => zeroChannel, flags := fun _ _ => false,
    cselr := fun _ => 0, muxcr := fun _ => 0 }

/-- Every channel enabled (EN = 1), everything else at reset. -/
def enabledState : DmaState :=
  { resetState with
    chs := fun _ => { zeroChannel with ccr := { zeroCCR with en := true } } }

/-- Every channel with MEM2MEM = 1 left over, everything else at reset. -/
def mem2memState : DmaState :=
  { resetState with
    chs := fun _ => { zeroChannel with ccr := { zeroCCR with mem2mem := true } } }

/-- Every channel with both CIRC = 1 and MEM2MEM = 1, everything else at
reset. -/
def circMem2memState : DmaState :=
  { resetState with
    chs := fun _ =>
      { zeroChannel with ccr := { zeroCCR with circ := true, mem2mem := true } } }

/-- Every latched interrupt flag of every channel set. -/
def allFlagsState : DmaState :=
  { resetState with flags := fun _ _ => true }

/-- The `ChannelCfg` of the spec's circular scenario: default configuration
with circular mode requested. -/
def circularCfg : ChannelCfg :=
  { ChannelCfg.default with circular := .Enabled }

/-! ### Helper lemmas -/

/-- The 2-bit PL field encoding of every priority fits in its field. -/
theorem priority_toU8_lt_four (p : Priority) : p.toU8 < 4 := by
  cases p <;> decide

/-- The 2-bit PSIZE/MSIZE field encoding of every data size fits in its
field. -/
theorem dataSize_toU8_lt_four (d : DataSize) : d.toU8 < 4 := by
  cases d <;> decide

/-! ### C8: stop clears the enable bit -/

/-- C8: for every channel and every prior register state, `stop` leaves the
channel's CCR EN bit clear. -/
theorem stop_clears_en (s : DmaState) (ch : DmaChannel) :
    ((stop s ch).chs ch).ccr.en = false := by
  simp [stop, stop_trace, runTrace, applyWrite, DmaState.updateCh, applyCcrWrite]

/-! ### C10: stop modifies only the enable bit -/

/-- C10: `stop ch` changes nothing but channel `ch`'s EN bit: every channel's
CPAR, CMAR and CNDTR are untouched, every CCR equals its old value except
that `ch`'s EN is cleared, and the latched flags, the channel-select
register and the DMAMUX registers are untouched. -/
theorem stop_frame (s : DmaState) (ch c : DmaChannel) :
    ((stop s ch).chs c).cpar = (s.chs c).cpar ∧
    ((stop s ch).chs c).cmar = (s.chs c).cmar ∧
    ((stop s ch).chs c).cndtr = (s.chs c).cndtr ∧
    ((stop s ch).chs c).ccr
      = { (s.chs c).ccr with en := if c = ch then false else (s.chs c).ccr.en } ∧
    (stop s ch).flags = s.flags ∧
    (stop s ch).cselr = s.cselr ∧
    (stop s ch).muxcr = s.muxcr := by
  by_cases h : c = ch <;>
    simp [stop, stop_trace, runTrace, applyWrite, DmaState.updateCh, applyCcrWrite, h]

/-! ### C7: the enable-bit busy-wait is unbounded -/

/-- C7 (code evaluated at the failing input): the `enable_interrupt!`
busy-wait polling the EN bit never exits and surfaces no condition when
the polled bit stays set forever — for every number of polls the loop is
still spinning (`pollWhileSet` returns `none` for every fuel), so the
source's unbounded loop runs forever instead of reporting a
hardware-unresponsive condition. -/
theorem pollWhileSet_never_exits (fuel start : Nat) :
    pollWhileSet (fun _ => true) fuel start = none := by
  induction fuel generalizing start with
  | zero => rfl
  | succ n ih => simp [pollWhileSet, ih]

/-! ### C4: enable_interrupt preserves the run state and touches one bit -/

/-- C4: for every channel and interrupt kind, `enable_interrupt` leaves the
channel's EN bit equal to its value on entry, and in the final CCR the
requested interrupt-enable bit is set while each of the other two
interrupt-enable bits keeps its previous value. -/
theorem enable_interrupt_run_state_and_bits (s : DmaState) (ch : DmaChannel)
    (it : DmaInterrupt) :
    ((enable_interrupt s ch it).chs ch).ccr.en = (s.chs ch).ccr.en ∧
    ∀ k : DmaInterrupt,
      ((enable_interrupt s ch it).chs ch).ccr.intEnable k
        = (if k = it then true else (s.chs ch).ccr.intEnable k) := by
  constructor
  · cases h : (s.chs ch).ccr.en <;> cases it <;>
      simp [enable_interrupt, enable_interrupt_trace, h, runTrace, applyWrite,
        DmaState.updateCh, applyCcrWrite]
  · intro k
    cases h : (s.chs ch).ccr.en <;> cases it <;> cases k <;>
      simp [enable_interrupt, enable_interrupt_trace, h, runTrace, applyWrite,
        DmaState.updateCh, applyCcrWrite, CCR.intEnable]

/-! ### C1: cfg_channel read-back matches the inputs -/

/-- C1: for every channel, prior state and configuration (addresses in u32
range, count in u16 range), after `cfg_channel` the channel's CPAR holds
the peripheral address, CMAR the memory address, CNDTR the transfer count,
and the CCR's PL, DIR, CIRC, PINC, MINC, PSIZE and MSIZE fields hold the
register encodings of the corresponding inputs, with EN = 1. -/
theorem cfg_channel_readback (s : DmaState) (ch : DmaChannel)
    (pa ma nd : Nat) (dir : Direction) (cfg : ChannelCfg)
    (hpa : pa < 2 ^ 32) (hma : ma < 2 ^ 32) (hnd : nd < 2 ^ 16) :
    ((cfg_channel s ch pa ma nd dir cfg).chs ch).cpar = pa ∧
    ((cfg_channel s ch pa ma nd dir cfg).chs ch).cmar = ma ∧
    ((cfg_channel s ch pa ma nd dir cfg).chs ch).cndtr = nd ∧
    ((cfg_channel s ch pa ma nd dir cfg).chs ch).ccr.pl = cfg.priority.toU8 ∧
    ((cfg_channel s ch pa ma nd dir cfg).chs ch).ccr.dir = (dir.toU8 != 0) ∧
    ((cfg_channel s ch pa ma nd dir cfg).chs ch).ccr.circ = (cfg.circular.toU8 != 0) ∧
    ((cfg_channel s ch pa ma nd dir cfg).chs ch).ccr.pinc = (cfg.periph_incr.toU8 != 0) ∧
    ((cfg_channel s ch pa ma nd dir cfg).chs ch).ccr.minc = (cfg.mem_incr.toU8 != 0) ∧
    ((cfg_channel s ch pa ma nd dir cfg).chs ch).ccr.psize = cfg.periph_size.toU8 ∧
    ((cfg_channel s ch pa ma nd dir cfg).chs ch).ccr.msize = cfg.mem_size.toU8 ∧
    ((cfg_channel s ch pa ma nd dir cfg).chs ch).ccr.en = true := by
  rcases cfg with ⟨pr, ci, pi, mi, ps, ms⟩
  cases ci <;>
    (simp [cfg_channel, cfg_channel_trace, set_ccr_trace, runTrace, applyWrite,
       DmaState.updateCh, applyCcrWrite, Nat.mod_eq_of_lt hpa, Nat.mod_eq_of_lt hma,
       Nat.mod_eq_of_lt hnd, Nat.mod_eq_of_lt (priority_toU8_lt_four pr),
       Nat.mod_eq_of_lt (dataSize_toU8_lt_four ps),
       Nat.mod_eq_of_lt (dataSize_toU8_lt_four ms)]
     exact ⟨hpa, hma, hnd⟩)

/-- C1 witness: the spec's scenario — channel 1, read-from-peripheral,
count 16, circular disabled, 8-bit widths — read back from the reset
state. -/
theorem cfg_channel_readback_witness :
    ((0x40004428 : Nat) < 2 ^ 32 ∧ (0x20000000 : Nat) < 2 ^ 32 ∧ (16 : Nat) < 2 ^ 16) ∧
    (((cfg_channel resetState .C1 0x40004428 0x20000000 16 .ReadFromPeriph
        ChannelCfg.default).chs .C1).cpar = 0x40004428 ∧
     ((cfg_channel resetState .C1 0x40004428 0x20000000 16 .ReadFromPeriph
        ChannelCfg.default).chs .C1).cmar = 0x20000000 ∧
     ((cfg_channel resetState .C1 0x40004428 0x20000000 16 .ReadFromPeriph
        ChannelCfg.default).chs .C1).cndtr = 16 ∧
     ((cfg_channel resetState .C1 0x40004428 0x20000000 16 .ReadFromPeriph
        ChannelCfg.default).chs .C1).ccr.pl = ChannelCfg.default.priority.toU8 ∧
     ((cfg_channel resetState .C1 0x40004428 0x20000000 16 .ReadFromPeriph
        ChannelCfg.default).chs .C1).ccr.dir = (Direction.ReadFromPeriph.toU8 != 0) ∧
     ((cfg_channel resetState .C1 0x40004428 0x20000000 16 .ReadFromPeriph
        ChannelCfg.default).chs .C1).ccr.circ = (ChannelCfg.default.circular.toU8 != 0) ∧
     ((cfg_channel resetState .C1 0x40004428 0x20000000 16 .ReadFromPeriph
        ChannelCfg.default).chs .C1).ccr.pinc = (ChannelCfg.default.periph_incr.toU8 != 0) ∧
     ((cfg_channel resetState .C1 0x40004428 0x20000000 16 .ReadFromPeriph
        ChannelCfg.default).chs .C1).ccr.minc = (ChannelCfg.default.mem_incr.toU8 != 0) ∧
     ((cfg_channel resetState .C1 0x40004428 0x20000000 16 .ReadFromPeriph
        ChannelCfg.default).chs .C1).ccr.psize = ChannelCfg.default.periph_size.toU8 ∧
     ((cfg_channel resetState .C1 0x40004428 0x20000000 16 .ReadFromPeriph
        ChannelCfg.default).chs .C1).ccr.msize = ChannelCfg.default.mem_size.toU8 ∧
     ((cfg_channel resetState .C1 0x40004428 0x20000000 16 .ReadFromPeriph
        ChannelCfg.default).chs .C1).ccr.en = true) :=
  ⟨⟨by decide, by decide, by decide⟩,
   cfg_channel_readback resetState .C1 0x40004428 0x20000000 16 .ReadFromPeriph
     ChannelCfg.default (by decide) (by decide) (by decide)⟩

/-! ### C9: cfg_channel without circular mode never writes MEM2MEM -/

/-- C9: when circular mode is not requested, `cfg_channel` leaves the
channel's MEM2MEM bit at the value it held before the call (only a
circular-mode request clears it), including in the final re-enabled
state. -/
theorem cfg_channel_preserves_mem2mem (s : DmaState) (ch : DmaChannel)
    (pa ma nd : Nat) (dir : Direction) (cfg : ChannelCfg)
    (h : cfg.circular = Circular.Disabled) :
    ((cfg_channel s ch pa ma nd dir cfg).chs ch).ccr.mem2mem
      = (s.chs ch).ccr.mem2mem := by
  rcases cfg with ⟨pr, ci, pi, mi, ps, ms⟩
  cases h
  simp [cfg_channel, cfg_channel_trace, set_ccr_trace, runTrace, applyWrite,
    DmaState.updateCh, applyCcrWrite]

/-- C9 witness: a left-over MEM2MEM = 1 survives a non-circular
`cfg_channel` call. -/
theorem cfg_channel_preserves_mem2mem_witness :
    ChannelCfg.default.circular = Circular.Disabled ∧
    ((cfg_channel mem2memState .C1 1 2 16 .ReadFromPeriph
        ChannelCfg.default).chs .C1).ccr.mem2mem
      = (mem2memState.chs .C1).ccr.mem2mem :=
  ⟨rfl, cfg_channel_preserves_mem2mem mem2memState .C1 1 2 16 .ReadFromPeriph
    ChannelCfg.default rfl⟩

/-! ### C2: which writes happen while the channel is enabled -/

/-- C2 counterexample: with channel 1 enabled on entry, `cfg_channel`'s
write sequence does touch protected fields while EN = 1 — its very first
write (the peripheral-address register) precedes the EN-clearing write —
so the claimed "disable before any address/count/mode write" ordering is
false on the code. -/
theorem cfg_channel_writes_addr_while_enabled :
    (enabledState.chs .C1).ccr.en = true ∧
    noWriteWhileEnabled cfgFieldWrite (enabledState.chs .C1).ccr.en
      (cfg_channel_trace .C1 1 2 16 .ReadFromPeriph ChannelCfg.default) = false := by
  decide

/-- C2 amended: `cfg_channel` writes CPAR, CMAR and CNDTR first (before the
EN-clearing write, hence while EN = 1 whenever the channel was enabled on
entry); only the CCR configuration-mode fields (priority / direction /
circular / increment / width) are protected: for every starting EN value
the mode-field write never happens while EN = 1, the EN = 0 write coming
before it. -/
theorem cfg_channel_disable_before_mode_write (en0 : Bool) (ch : DmaChannel)
    (pa ma nd : Nat) (dir : Direction) (cfg : ChannelCfg) :
    noWriteWhileEnabled modeFieldWrite en0
      (cfg_channel_trace ch pa ma nd dir cfg) = true ∧
    (cfg_channel_trace ch pa ma nd dir cfg).take 4
      = [WriteEvent.wCpar ch pa, WriteEvent.wCmar ch ma,
         WriteEvent.wCndtr ch nd, WriteEvent.wCcr ch (.setEn false)] := by
  rcases cfg with ⟨pr, ci, pi, mi, ps, ms⟩
  cases ci <;> cases en0 <;>
    simp [cfg_channel_trace, set_ccr_trace, noWriteWhileEnabled, enAfter,
      modeFieldWrite]

/-! ### C3: MEM2MEM versus CIRC during configuration -/

/-- C3 counterexample: starting from a register state in which channel 1's
CCR already has CIRC = 1 and MEM2MEM = 1, a circular-mode `cfg_channel`
call leaves both bits simultaneously set after its early writes (the
address/count writes and the EN-clearing write do not touch them), so the
claim's "at no point are both set" is false on the code for that
pre-state. -/
theorem cfg_channel_circ_mem2mem_both_set :
    (mem2memClearedBeforeCirc
        (cfg_channel_trace .C1 1 2 16 .ReadFromPeriph circularCfg) &&
     noBothCircMem2mem (circMem2memState.chs .C1).ccr
        (cfg_channel_trace .C1 1 2 16 .ReadFromPeriph circularCfg)) = false := by
  decide

/-- C3 amended: for every circular-mode `cfg_channel` call whose pre-state
does not already have CIRC and MEM2MEM both set, the emitted sequence
clears MEM2MEM before any write that sets CIRC, and after every write of
the sequence (and in the final state) CIRC and MEM2MEM are never both
set. -/
theorem cfg_channel_circ_clears_mem2mem (s : DmaState) (ch : DmaChannel)
    (pa ma nd : Nat) (dir : Direction) (cfg : ChannelCfg)
    (hpre : ((s.chs ch).ccr.circ && (s.chs ch).ccr.mem2mem) = false)
    (hc : cfg.circular = Circular.Enabled) :
    mem2memClearedBeforeCirc (cfg_channel_trace ch pa ma nd dir cfg) = true ∧
    noBothCircMem2mem (s.chs ch).ccr (cfg_channel_trace ch pa ma nd dir cfg) = true := by
  rcases cfg with ⟨pr, ci, pi, mi, ps, ms⟩
  cases hc
  refine ⟨by simp [cfg_channel_trace, set_ccr_trace, mem2memClearedBeforeCirc,
    mem2memClearedBeforeCirc.go], ?_⟩
  simp [cfg_channel_trace, set_ccr_trace, noBothCircMem2mem, ccrStates,
    applyCcrWrite]
  cases hc1 : (s.chs ch).ccr.circ with
  | false => exact Or.inl rfl
  | true => exact Or.inr (by simpa [hc1] using hpre)

/-- C3 witness: the interesting pre-state — MEM2MEM = 1 left over, CIRC
still 0 — with circular mode requested on channel 1. -/
theorem cfg_channel_circ_clears_mem2mem_witness :
    ((mem2memState.chs .C1).ccr.circ && (mem2memState.chs .C1).ccr.mem2mem) = false ∧
    circularCfg.circular = Circular.Enabled ∧
    (mem2memClearedBeforeCirc
        (cfg_channel_trace .C1 1 2 16 .ReadFromPeriph circularCfg) = true ∧
     noBothCircMem2mem (mem2memState.chs .C1).ccr
        (cfg_channel_trace .C1 1 2 16 .ReadFromPeriph circularCfg) = true) :=
  ⟨by decide, rfl,
   cfg_channel_circ_clears_mem2mem mem2memState .C1 1 2 16 .ReadFromPeriph
     circularCfg (by decide) rfl⟩

/-! ### C5: clear_interrupt touches exactly one flag -/

/-- C5: starting from a state in which every channel's every latched flag
is set, `clear_interrupt ch it` leaves exactly channel `ch`'s flag of kind
`it` clear: a flag of channel `c` and kind `k` reads `false` exactly when
`c = ch` and `k = it`, every other flag still reads `true`. -/
theorem clear_interrupt_only_target (s : DmaState) (ch : DmaChannel)
    (it : DmaInterrupt) (h : ∀ c k, s.flags c k = true) :
    ∀ c k, (clear_interrupt s ch it).flags c k
      = !(decide (c = ch) && decide (k = it)) := by
  intro c k
  simp [clear_interrupt, clear_interrupt_trace, runTrace, applyWrite, h]

/-- C5 witness: clearing channel 2's half-transfer flag with all flags
pre-set. -/
theorem clear_interrupt_only_target_witness :
    (∀ c k, allFlagsState.flags c k = true) ∧
    ∀ c k, (clear_interrupt allFlagsState .C2 .HalfTransfer).flags c k
      = !(decide (c = DmaChannel.C2) && decide (k = DmaInterrupt.HalfTransfer)) :=
  ⟨fun _ _ => rfl,
   clear_interrupt_only_target allFlagsState .C2 .HalfTransfer (fun _ _ => rfl)⟩

/-! ### C6: routing-range validation -/

/-- C6 counterexample: under the multiplexer strategy the code performs no
range validation at all — `mux` with `request_line_id = 200` (beyond the
chip's valid request-line inputs, which per the source comment reach 115
on G4) emits a register write instead of failing with no write, so the
claim's "fails before performing any register write" is false for the
multiplexer strategy. -/
theorem mux_out_of_range_still_writes :
    (mux resetState .C1 200).fst ≠ [] ∧
    (mux resetState .C1 200).fst = [WriteEvent.wMuxCr .C1 200] := by
  decide

/-- C6 amended: the selector strategy (`channel_select`) rejects every
`request_line_id > 7` with the invalid-input panic "CSEL must be 0 - 7"
before any register write and emits exactly one CSELR write otherwise,
while the multiplexer strategy (`mux`) performs no range validation and
always emits its request-line register write. -/
theorem routing_range_validation (s : DmaState) (ch : DmaChannel) (sel : Nat) :
    (sel > 7 → channel_select s ch sel = Except.error "CSEL must be 0 - 7") ∧
    (sel ≤ 7 → channel_select s ch sel
      = Except.ok ([WriteEvent.wCselr ch sel],
          runTrace s [WriteEvent.wCselr ch sel])) ∧
    (mux s ch sel).fst = [WriteEvent.wMuxCr ch sel] := by
  refine ⟨fun hgt => ?_, fun hle => ?_, rfl⟩
  · simp [channel_select, hgt]
  · simp [channel_select, Nat.not_lt_of_le hle]

/-- C6 witness: the spec's scenario — `request_line_id = 8` under the 0–7
selector strategy is rejected with the invalid-input panic and produces no
register write. -/
theorem routing_range_validation_witness :
    channel_select resetState .C1 8 = Except.error "CSEL must be 0 - 7" :=
  (routing_range_validation resetState .C1 8).1 (by decide)

end Dma
